import Mathlib

/-!
Verification of the meeting-agent application (`main_app.py`, `worker.py`,
`models.py`) against its natural-language specification.

The Python code is shallowly embedded as pure Lean functions.  External
collaborators (SMTP transport, Trello REST API, Slack webhook, Jira REST API,
the Gemini summarizer) are modelled as oracles: each outbound call is a value
of type `Except String _` supplied by the environment, where `Except.error e`
stands for the exception (with message `e`) the Python client library would
raise, and `Except.ok v` for a successful response.  Database state
(`TrelloCard` rows from `models.py`) is threaded explicitly as a list of
records; `db.session.add`/`commit`/`rollback` become explicit list operations.
Every outbound network interaction is additionally logged as a `Call` event so
that "no network call is made" claims are expressible.
-/

namespace MeetingAgent

/-- Python's case-sensitive substring test `pat in s` (`str.__contains__`). -/
def strContains (s pat : String) : Bool :=
  decide (pat.data <:+: s.data)

/-- Truthiness of an optional string, as Python evaluates
`request.form.get(...)` and similar values in a boolean context:
`None` and `""` are falsy, every other string is truthy. -/
def truthy : Option String → Bool
  | none => false
  | some s => !s.isEmpty

/-- One action item extracted by the AI: a JSON object with optional
`task` / `assignee` / `due_date` keys, read in the source via `item.get`. -/
structure ActionItem where
  task : Option String
  assignee : Option String
  due_date : Option String
deriving DecidableEq, Repr

/-- The parsed AI analysis result (`analyze_transcript_with_ai` output): a
JSON object with an optional `error` marker plus `summary` / `decisions` /
`action_items` (an absent `action_items` key is absorbed into the empty list,
matching `analysis_result.get('action_items', [])`). -/
structure Analysis where
  error : Option String
  summary : Option String
  decisions : List String
  action_items : List ActionItem
deriving DecidableEq, Repr

/-- `analysis_result.get('error')` used in a boolean context. -/
def errorTruthy (a : Analysis) : Bool :=
  truthy a.error

/-- A `TrelloCard` row from `models.py` (a Tracked Task Record). -/
structure TrelloCardRec where
  card_id : String
  user_id : Nat
  board_id : String
  list_id : String
  task_description : String
  assignee : Option String
  due_date_str : Option String
deriving DecidableEq, Repr

/-- A `Team` row as the fan-out consumes it: the members' email addresses and
the optional Slack webhook URL. -/
structure Team where
  members : List String
  slack_webhook_url : Option String
deriving DecidableEq, Repr

/-- The fields of `current_user` that the analyze fan-out reads.
`trello_credentials` / `jira_credentials` record whether the corresponding
credential row exists (the relationship is non-`None`). -/
structure UserCtx where
  id : Nat
  team : Option Team
  trello_credentials : Bool
  jira_credentials : Bool
deriving DecidableEq, Repr

/-- The form fields the analyze route reads via `request.form.get`. -/
structure AnalyzeForm where
  transcript : Option String
  send_email : Option String
  create_trello : Option String
  trello_board_id : Option String
  trello_list_id : Option String
  send_slack : Option String
  create_jira : Option String
  jira_project_key : Option String
  jira_issue_type_name : Option String
deriving DecidableEq, Repr

/-- Outbound external interactions, logged so that claims about which network
calls happen can be stated.  `aiGenerate` is the summarizer call inside
`analyze_transcript_with_ai`; `emailSend` the SMTP session of
`send_summary_email`; `trelloGetList` / `trelloAddCard` the Trello REST calls
of `create_trello_cards`; `slackPost` the webhook POST of `send_to_slack`;
`jiraConnect` the `JIRA(...)` + `server_info()` connection of
`get_jira_client`; `jiraCreate` one `create_issue` call. -/
inductive Call where
  | aiGenerate
  | emailSend
  | trelloGetList
  | trelloAddCard
  | slackPost
  | jiraConnect
  | jiraCreate
deriving DecidableEq, Repr

/-- The environment: the behaviour of every external collaborator during one
request.  `trello_addCard` and `jiraCreate` are indexed by the call number
(0-based) within the request, so the environment can accept some calls and
reject others. -/
structure Env where
  aiResult : Analysis
  sender_configured : Bool
  emailResult : Except String Unit
  trello_getList : String → Except String Unit
  trello_addCard : Nat → Except String String
  slackResp : Except String String
  jiraConnect : Except String Unit
  jiraCreate : Nat → Except String String

/-- `send_summary_email` (main_app.py lines 95-110).  The subject/body
construction is pure and does not influence the returned status; the single
SMTP session (connect + login + send) is the `emailSend` event and its outcome
is the `smtp` oracle.  The `recipients` and `analysis` arguments are kept to
mirror the source signature. -/
def send_summary_email (sender_configured : Bool) (smtp : Except String Unit)
    (recipients : List String) (analysis : Analysis) : String × List Call :=
  if !sender_configured then ("Email creds not configured.", [])
  else
    match smtp with
    | .ok _ => ("Email sent successfully.", [.emailSend])
    | .error e => ("Failed to send email: " ++ e, [.emailSend])

/-- The `TrelloCard` row built inside the loop of `create_trello_cards`. -/
def mkTrelloRec (item : ActionItem) (cid : String) (uid : Nat)
    (board_id list_id : String) : TrelloCardRec :=
  { card_id := cid, user_id := uid, board_id := board_id, list_id := list_id,
    task_description := item.task.getD "No desc",
    assignee := item.assignee, due_date_str := item.due_date }

/-- The `for item in action_items` loop of `create_trello_cards`
(main_app.py lines 116-124): each iteration issues one `add_card` call
(the card name/description built from the item are consumed by the external
API and do not affect the control flow) and, on success, stages one
`TrelloCard` row in the session (`pending`) and increments `cards_created`.
The first exception aborts the loop (the whole loop body sits inside the
function's single `try`).  Returns the loop outcome together with the
`trelloAddCard` events that were issued. -/
def trelloLoop (ac : Nat → Except String String) (board_id list_id : String)
    (uid : Nat) :
    List ActionItem → Nat → Nat → List TrelloCardRec →
      Except String (Nat × List TrelloCardRec) × List Call
  | [], _, created, pending => (.ok (created, pending), [])
  | item :: rest, idx, created, pending =>
    match ac idx with
    | .error e => (.error e, [.trelloAddCard])
    | .ok cid =>
      let r := trelloLoop ac board_id list_id uid rest (idx + 1) (created + 1)
        (pending ++ [mkTrelloRec item cid uid board_id list_id])
      (r.1, .trelloAddCard :: r.2)

/-- `create_trello_cards` (main_app.py lines 112-128).  The whole body is one
`try`: a `get_list` failure or any `add_card` failure raises, the `except`
rolls the session back (the staged rows are discarded, the committed database
`db` is returned unchanged) and returns `"Failed Trello cards: " ++ e`.  If
every call succeeds, `db.session.commit()` appends the staged rows and the
status is `"{n} Trello cards created."`.  Result: (status, database after the
call, outbound Trello calls made). -/
def create_trello_cards (gl : String → Except String Unit)
    (ac : Nat → Except String String) (board_id list_id : String)
    (action_items : List ActionItem) (user_id : Nat)
    (db : List TrelloCardRec) : String × List TrelloCardRec × List Call :=
  match gl list_id with
  | .error e => ("Failed Trello cards: " ++ e, db, [.trelloGetList])
  | .ok _ =>
    let r := trelloLoop ac board_id list_id user_id action_items 0 0 []
    match r.1 with
    | .error e => ("Failed Trello cards: " ++ e, db, .trelloGetList :: r.2)
    | .ok (n, pending) =>
      (toString n ++ " Trello cards created.", db ++ pending,
        .trelloGetList :: r.2)

/-- `send_to_slack` (main_app.py lines 130-195).  The Slack block payload
built from `analysis` is pure and consumed only by the webhook; the POST plus
`raise_for_status` is the `resp` oracle: `Except.error e` covers a
`RequestException` (network failure or HTTP error status), `Except.ok body`
a completed 2xx response with body `body`. -/
def send_to_slack (team : Option Team) (resp : Except String String)
    (analysis : Analysis) : String × List Call :=
  match team with
  | none => ("Slack is not configured for this team.", [])
  | some t =>
    if !truthy t.slack_webhook_url then
      ("Slack is not configured for this team.", [])
    else
      match resp with
      | .error e => ("Failed Slack send: " ++ e, [.slackPost])
      | .ok body =>
        if body = "ok" then ("Summary sent to Slack.", [.slackPost])
        else ("Slack unexpected response: " ++ body, [.slackPost])

/-- `get_jira_client` (main_app.py lines 198-213): `None` without any network
call when no credential row exists; otherwise one connection attempt
(`jiraConnect`), returning `None` if it raises. -/
def get_jira_client (jira_credentials : Bool) (connect : Except String Unit) :
    Option Unit × List Call :=
  if jira_credentials then
    match connect with
    | .ok _ => (some (), [.jiraConnect])
    | .error _ => (none, [.jiraConnect])
  else (none, [])

/-- The `for item in action_items` loop of `create_jira_issues`
(main_app.py lines 223-237): every item issues one `create_issue` call; a
failure is caught per item, the item's summary
(`item.get('task', 'Untitled Meeting Task')`) is appended to `failed_items`,
and the loop continues.  Returns (issues_created, failed_items, calls). -/
def jiraLoop (create : Nat → Except String String) :
    List ActionItem → Nat → Nat → List String → Nat × List String × List Call
  | [], _, created, failed => (created, failed, [])
  | item :: rest, idx, created, failed =>
    match create idx with
    | .ok _ =>
      let r := jiraLoop create rest (idx + 1) (created + 1) failed
      (r.1, r.2.1, .jiraCreate :: r.2.2)
    | .error _ =>
      let r := jiraLoop create rest (idx + 1) created
        (failed ++ [item.task.getD "Untitled Meeting Task"])
      (r.1, r.2.1, .jiraCreate :: r.2.2)

/-- `create_jira_issues` (main_app.py lines 215-242).  Note the source order:
the connection attempt (`get_jira_client`) happens before the
action-items / project-key / issue-type checks. -/
def create_jira_issues (jira_credentials : Bool)
    (connect : Except String Unit) (create : Nat → Except String String)
    (action_items : List ActionItem) (project_key issue_type_name : String) :
    String × List Call :=
  let cl := get_jira_client jira_credentials connect
  match cl.1 with
  | none => ("Failed to connect to Jira. Check credentials.", cl.2)
  | some _ =>
    if action_items.isEmpty then ("No action items to create.", cl.2)
    else if project_key.isEmpty || issue_type_name.isEmpty then
      ("Jira Project/Issue Type required.", cl.2)
    else
      let r := jiraLoop create action_items 0 0 []
      if r.2.1.isEmpty then
        (toString r.1 ++ " Jira issues created in " ++ project_key ++ ".",
          cl.2 ++ r.2.2)
      else
        ("Created " ++ toString r.1 ++ " issues. Failed for: " ++
          String.intercalate ", " r.2.1 ++ ".", cl.2 ++ r.2.2)

/-- The failure-vocabulary test of the notification logic (main_app.py line
362): `"Failed" in msg or "Error" in msg or "Invalid" in msg or "must be" in
msg or "not connected" in msg or "missing" in msg`.  Python's `in` is
case-sensitive, hence `strContains`. -/
def isFailureMsg (msg : String) : Bool :=
  strContains msg "Failed" || strContains msg "Error" ||
  strContains msg "Invalid" || strContains msg "must be" ||
  strContains msg "not connected" || strContains msg "missing"

/-- The classification loop of main_app.py lines 360-364: `overall_type`
starts as `"success"` and flips to `"danger"` at the first message matching
the failure vocabulary (the `break` makes the loop equivalent to an
existence test over the list). -/
def overall_type (msgs : List String) : String :=
  if msgs.any isFailureMsg then "danger" else "success"

/-- The notification shown to the user. -/
structure Notification where
  type : String
  message : String
deriving DecidableEq, Repr

/-- The email branch of the fan-out (main_app.py lines 316-323).  The nested
structure is the `if flag and team: ... / elif flag: ...` chain written as
nested conditionals.  Returns (messages appended, calls made). -/
def emailSegment (env : Env) (u : UserCtx) (f : AnalyzeForm) (a : Analysis) :
    List String × List Call :=
  if f.send_email = some "true" then
    match u.team with
    | some t =>
      let recipients := t.members.filter (fun m => !m.isEmpty)
      if !recipients.isEmpty then
        let r := send_summary_email env.sender_configured env.emailResult
          recipients a
        (["Email: " ++ r.1], r.2)
      else (["Email: No emails in team."], [])
    | none => (["Email: Requires team."], [])
  else ([], [])

/-- The Trello branch of the fan-out (main_app.py lines 325-336).
`get_trello_client` returns a client whenever the credential row exists, so
`t_client` is available in the guarded branch; the source's final
`"Trello: Client error."` arm (reachable only with `t_client` falsy but both
identifiers truthy) is kept verbatim even though it is dead under that
invariant.  Returns (messages, database after, calls). -/
def trelloSegment (env : Env) (u : UserCtx) (f : AnalyzeForm) (a : Analysis)
    (db : List TrelloCardRec) :
    List String × List TrelloCardRec × List Call :=
  if f.create_trello = some "true" then
    if u.trello_credentials then
      if truthy f.trello_board_id && truthy f.trello_list_id then
        let r := create_trello_cards env.trello_getList env.trello_addCard
          (f.trello_board_id.getD "") (f.trello_list_id.getD "")
          a.action_items u.id db
        (["Trello: " ++ r.1], r.2.1, r.2.2)
      else if !truthy f.trello_board_id || !truthy f.trello_list_id then
        (["Trello: Board/List missing."], db, [])
      else (["Trello: Client error."], db, [])
    else (["Trello: Not connected."], db, [])
  else ([], db, [])

/-- The Slack branch of the fan-out (main_app.py lines 338-345):
`if flag and team and team.slack_webhook_url: ... / elif flag: ...`. -/
def slackSegment (env : Env) (u : UserCtx) (f : AnalyzeForm) (a : Analysis) :
    List String × List Call :=
  if f.send_slack = some "true" then
    match u.team with
    | some t =>
      if truthy t.slack_webhook_url then
        let r := send_to_slack (some t) env.slackResp a
        (["Slack: " ++ r.1], r.2)
      else (["Slack: Not connected."], [])
    | none => (["Slack: Requires team."], [])
  else ([], [])

/-- The Jira branch of the fan-out (main_app.py lines 347-357): with the flag
set and a credential row present, a missing project key or issue-type name is
answered with `"Jira: Project and Issue Type must be selected."` before
`create_jira_issues` (and hence any Jira network call) is reached. -/
def jiraSegment (env : Env) (u : UserCtx) (f : AnalyzeForm) (a : Analysis) :
    List String × List Call :=
  if f.create_jira = some "true" then
    if u.jira_credentials then
      if !truthy f.jira_project_key || !truthy f.jira_issue_type_name then
        (["Jira: Project and Issue Type must be selected."], [])
      else
        let r := create_jira_issues u.jira_credentials env.jiraConnect
          env.jiraCreate a.action_items (f.jira_project_key.getD "")
          (f.jira_issue_type_name.getD "")
        (["Jira: " ++ r.1], r.2)
    else (["Jira: Integration not connected."], [])
  else ([], [])

/-- The four integration branches in their fixed source order (email, Trello,
Slack, Jira), accumulating `automation_messages`, the database, and the
outbound calls. -/
def runAutomations (env : Env) (u : UserCtx) (f : AnalyzeForm) (a : Analysis)
    (db : List TrelloCardRec) :
    List String × List TrelloCardRec × List Call :=
  let e := emailSegment env u f a
  let t := trelloSegment env u f a db
  let s := slackSegment env u f a
  let j := jiraSegment env u f a
  (e.1 ++ (t.1 ++ (s.1 ++ j.1)), t.2.1, e.2 ++ (t.2.2 ++ (s.2 ++ j.2)))

/-- What the analyze route hands to the template. -/
structure AnalyzeResult where
  analysis : Option Analysis
  notification : Option Notification
  db : List TrelloCardRec
  calls : List Call
deriving DecidableEq, Repr

/-- The analyze route handler (main_app.py lines 304-372), up to the final
page render.  A falsy transcript skips everything (no AI call, `analysis` and
`notification` stay `None`).  Otherwise the summarizer is invoked
(`aiGenerate`; its parsed result is the `aiResult` oracle).  A truthy `error`
marker skips all integrations and yields the `"AI Error: ..."` danger
notification; otherwise the fan-out runs and, when at least one integration
was attempted, the messages are joined with `" | "` under the
`overall_type` classification. -/
def analyze (env : Env) (u : UserCtx) (f : AnalyzeForm)
    (db : List TrelloCardRec) : AnalyzeResult :=
  if truthy f.transcript then
    let a := env.aiResult
    if !errorTruthy a then
      let r := runAutomations env u f a db
      let notif : Option Notification :=
        if r.1.isEmpty then none
        else some ⟨overall_type r.1, String.intercalate " | " r.1⟩
      ⟨some a, notif, r.2.1, .aiGenerate :: r.2.2⟩
    else
      ⟨some a, some ⟨"danger", "AI Error: " ++ a.error.getD ""⟩, db,
        [.aiGenerate]⟩
  else ⟨none, none, db, []⟩

/-! ## Poll worker (`worker.py`) -/

/-- The fields of a `User` row the worker reads: the username and the Trello
credential token (`none` when no credential row exists; the worker's query
keeps only users where it is present). -/
structure WorkerUser where
  username : String
  trello_token : Option String
deriving DecidableEq, Repr

/-- The external Trello card as the worker sees it after `client.get_card`:
its name, its current list id, and that list's name (the `card.get_list()`
lookup in the moved branch is folded into the same fetch; a failure of either
lookup is the fetch oracle's `Except.error`). -/
structure TrelloCardExt where
  name : String
  list_id : String
  list_name : String
deriving DecidableEq, Repr

/-- The per-task classification the worker prints (worker.py lines 45-56). -/
inductive DriftResult where
  | moved (name newList : String)
  | unchanged (name : String)
  | unreachable (card_id err : String)
deriving DecidableEq, Repr

/-- The body of the per-card loop (worker.py lines 45-56): fetch the card
with the user's client (`g token card_id`); a fetch failure is caught and
reported as unreachable; otherwise compare the current list id with the
stored `card_record.list_id`.  Nothing is ever written back to the record. -/
def checkCard (g : String → String → Except String TrelloCardExt)
    (token : String) (rec : TrelloCardRec) : DriftResult :=
  match g token rec.card_id with
  | .error e => .unreachable rec.card_id e
  | .ok card =>
    if card.list_id ≠ rec.list_id then .moved card.name card.list_name
    else .unchanged card.name

/-- The `for card_record in tracked_cards` loop for one user. -/
def processUser (g : String → String → Except String TrelloCardExt)
    (token : String) : List TrelloCardRec → List DriftResult
  | [] => []
  | r :: rest => checkCard g token r :: processUser g token rest

/-- The `for user in users_with_trello` loop of `check_trello_tasks`
(worker.py lines 29-56).  The database is modelled as each user paired with
their tracked cards; the query filter `User.trello_credentials != None`
becomes the match on `trello_token` (users without a credential row are not
iterated).  A user with no tracked cards contributes an empty report
(the `continue`). -/
def runUsers (g : String → String → Except String TrelloCardExt) :
    List (WorkerUser × List TrelloCardRec) → List (String × List DriftResult)
  | [] => []
  | (u, recs) :: rest =>
    match u.trello_token with
    | some tok => (u.username, processUser g tok recs) :: runUsers g rest
    | none => runUsers g rest

/-- `check_trello_tasks` (worker.py lines 13-56): produce the per-user drift
reports; the run performs no database write, so the store is returned as it
was read. -/
def check_trello_tasks (g : String → String → Except String TrelloCardExt)
    (db : List (WorkerUser × List TrelloCardRec)) :
    List (String × List DriftResult) × List (WorkerUser × List TrelloCardRec) :=
  (runUsers g db, db)

/-! ## Supporting lemmas -/

/-- If the environment accepts the first `j` `add_card` calls and rejects the
`j`-th (0-based), the Trello loop raises that error: the single `try` around
the whole loop means the iteration stops at the first failure. -/
lemma trelloLoop_firstFail (ac : Nat → Except String String)
    (board_id list_id : String) (uid : Nat) :
    ∀ (items : List ActionItem) (idx created : Nat)
      (pending : List TrelloCardRec) (j : Nat) (e : String),
      j < items.length → ac (idx + j) = .error e →
      (∀ i, i < j → ∃ c, ac (idx + i) = .ok c) →
      (trelloLoop ac board_id list_id uid items idx created pending).1 =
        .error e := by
  intro items
  induction items with
  | nil => intro idx created pending j e hj _ _; exact absurd hj (Nat.not_lt_zero j)
  | cons item rest ih =>
    intro idx created pending j e hj herr hok
    cases j with
    | zero =>
      rw [Nat.add_zero] at herr
      simp [trelloLoop, herr]
    | succ j =>
      obtain ⟨c, hc⟩ := hok 0 (Nat.succ_pos j)
      rw [Nat.add_zero] at hc
      simp only [trelloLoop, hc]
      exact ih (idx + 1) (created + 1) _ j e (Nat.lt_of_succ_lt_succ hj)
        (by have h : idx + 1 + j = idx + (j + 1) := by omega
            rw [h]; exact herr)
        (fun i hi => by
          have h : idx + 1 + i = idx + (i + 1) := by omega
          rw [h]; exact hok (i + 1) (Nat.succ_lt_succ hi))

/-- The per-user card loop of the worker is the map of the per-card check. -/
lemma processUser_eq_map (g : String → String → Except String TrelloCardExt)
    (token : String) (recs : List TrelloCardRec) :
    processUser g token recs = recs.map (checkCard g token) := by
  induction recs with
  | nil => rfl
  | cons r rest ih => simp [processUser, ih]

/-! ## Claims -/

/-- C1, counterexample.  Two action items; the environment accepts the first
`add_card` call (card id `"c1"`) and rejects the second (`"boom"`).  The
claim demands exactly `k = 1` Tracked Task Record afterwards and a status
enumerating the failed item's title; the code instead rolls the whole batch
back (zero records) and returns `"Failed Trello cards: boom"`. -/
theorem create_trello_cards_partial_failure_cex :
    (create_trello_cards (fun _ => .ok ())
        (fun i => if i = 0 then .ok "c1" else .error "boom") "B1" "L1"
        [⟨some "A", some "x", some "d"⟩, ⟨some "B", some "y", some "e"⟩] 7
        []).2.1.length ≠ 1 ∧
    (create_trello_cards (fun _ => .ok ())
        (fun i => if i = 0 then .ok "c1" else .error "boom") "B1" "L1"
        [⟨some "A", some "x", some "d"⟩, ⟨some "B", some "y", some "e"⟩] 7
        []).1 = "Failed Trello cards: boom" := by
  constructor <;> decide

/-- C1, amended.  If the target-list lookup succeeds and the environment
accepts the first `j` card-creation calls but rejects call `j`
(`j < N`), then `create_trello_cards` aborts at that first failure (the
whole loop runs inside one `try`), rolls the session back so that the
database is exactly as before the call — zero Tracked Task Records from this
batch, not `k` — and returns the single status `"Failed Trello cards: "`
followed by the error, with no enumeration of failed item titles. -/
theorem create_trello_cards_abort_on_first_failure
    (gl : String → Except String Unit) (ac : Nat → Except String String)
    (board_id list_id : String) (items : List ActionItem) (uid : Nat)
    (db : List TrelloCardRec) (j : Nat) (e : String)
    (hgl : gl list_id = .ok ()) (hj : j < items.length)
    (herr : ac j = .error e) (hok : ∀ i, i < j → ∃ c, ac i = .ok c) :
    (create_trello_cards gl ac board_id list_id items uid db).1 =
        "Failed Trello cards: " ++ e ∧
    (create_trello_cards gl ac board_id list_id items uid db).2.1 = db := by
  have hloop : (trelloLoop ac board_id list_id uid items 0 0 []).1 = .error e :=
    trelloLoop_firstFail ac board_id list_id uid items 0 0 [] j e hj
      (by rwa [Nat.zero_add]) (fun i hi => by rw [Nat.zero_add]; exact hok i hi)
  simp [create_trello_cards, hgl, hloop]

/-- C1, witness for the amended theorem at the counterexample input. -/
theorem create_trello_cards_abort_on_first_failure_witness :
    (create_trello_cards (fun _ => .ok ())
        (fun i => if i = 0 then .ok "c1" else .error "boom") "B1" "L1"
        [⟨some "A", some "x", some "d"⟩, ⟨some "B", some "y", some "e"⟩] 7
        []).1 = "Failed Trello cards: boom" ∧
    (create_trello_cards (fun _ => .ok ())
        (fun i => if i = 0 then .ok "c1" else .error "boom") "B1" "L1"
        [⟨some "A", some "x", some "d"⟩, ⟨some "B", some "y", some "e"⟩] 7
        []).2.1 = [] :=
  create_trello_cards_abort_on_first_failure _ _ "B1" "L1" _ 7 [] 1 "boom"
    rfl (by decide) rfl
    (fun i hi => ⟨"c1", by interval_cases i; rfl⟩)

/-- C2.  The classification of main_app.py line 362 is a case-sensitive
substring test.  On the spec's own example
`["5 cards created.", "Slack: Not connected."]` — the exact wording of the
`"Slack: Not connected."` status the handler itself emits at line 345 — no
vocabulary word matches (`"not connected"` has a lower-case `n`), so the code
classifies the run as `"success"`, not `"danger"` as the claim states; yet
the same vocabulary does catch the lower-case `"Jira: Integration not
connected."` status of line 357, so the code's own statuses are classified
inconsistently. -/
theorem overall_type_case_sensitivity_bug :
    overall_type ["5 cards created.", "Slack: Not connected."] = "success" ∧
    overall_type ["Jira: Integration not connected."] = "danger" := by
  constructor <;> decide

/-- C6.  The drift check never writes: the store after a run equals the store
before it; consequently a second run on the resulting store (same external
card states) reports exactly what the first did.  Per record, the
classification is stable against the never-updated baseline: a record whose
external card still sits in its stored list is `unchanged` on every run, and
a record stored with `list_id = "L1"` whose external card now sits in `"L2"`
is `moved` on every run. -/
theorem check_trello_tasks_baseline_never_mutated :
    (∀ (g : String → String → Except String TrelloCardExt)
        (db : List (WorkerUser × List TrelloCardRec)),
        (check_trello_tasks g db).2 = db) ∧
    (∀ (g : String → String → Except String TrelloCardExt)
        (db : List (WorkerUser × List TrelloCardRec)),
        (check_trello_tasks g ((check_trello_tasks g db).2)).1 =
          (check_trello_tasks g db).1) ∧
    (∀ (g : String → String → Except String TrelloCardExt) (token : String)
        (rec : TrelloCardRec) (card : TrelloCardExt),
        g token rec.card_id = .ok card → card.list_id = rec.list_id →
        checkCard g token rec = .unchanged card.name) ∧
    (∀ (g : String → String → Except String TrelloCardExt) (token : String)
        (rec : TrelloCardRec) (card : TrelloCardExt),
        g token rec.card_id = .ok card → rec.list_id = "L1" →
        card.list_id = "L2" →
        checkCard g token rec = .moved card.name card.list_name) := by
  refine ⟨fun g db => rfl, fun g db => rfl, ?_, ?_⟩
  · intro g token rec card hfetch heq
    simp [checkCard, hfetch, heq]
  · intro g token rec card hfetch hstored hcur
    simp [checkCard, hfetch, hstored, hcur]

/-- C6, witness: a record stored in `"L1"` whose card now sits in `"L2"` is
reported `moved` (applied to the drifted-card environment). -/
theorem check_trello_tasks_baseline_never_mutated_witness :
    checkCard (fun _ _ => .ok ⟨"Write doc", "L2", "Doing"⟩) "tok"
        ⟨"c1", 7, "B1", "L1", "Write doc", none, none⟩ =
      .moved "Write doc" "Doing" :=
  check_trello_tasks_baseline_never_mutated.2.2.2
    (fun _ _ => .ok ⟨"Write doc", "L2", "Doing"⟩) "tok"
    ⟨"c1", 7, "B1", "L1", "Write doc", none, none⟩
    ⟨"Write doc", "L2", "Doing"⟩ rfl rfl rfl

/-- C7.  A worker run is the full map of the per-card check over every
tracked record of every Trello-linked user: no record and no user is skipped,
whatever the fetch outcomes are.  A record whose fetch raises is reported as
unreachable (the per-card `try`/`except`), and by the map shape this leaves
all remaining records and users processed. -/
theorem check_trello_tasks_isolates_failures :
    (∀ (g : String → String → Except String TrelloCardExt)
        (db : List (WorkerUser × List TrelloCardRec)),
        (check_trello_tasks g db).1 =
          (db.filter (fun p => p.1.trello_token.isSome)).map
            (fun p => (p.1.username,
              p.2.map (checkCard g (p.1.trello_token.getD ""))))) ∧
    (∀ (g : String → String → Except String TrelloCardExt) (token : String)
        (rec : TrelloCardRec) (e : String),
        g token rec.card_id = .error e →
        checkCard g token rec = .unreachable rec.card_id e) := by
  constructor
  · intro g db
    show runUsers g db = _
    induction db with
    | nil => rfl
    | cons p rest ih =>
      obtain ⟨u, recs⟩ := p
      cases htok : u.trello_token with
      | none => simpa [runUsers, htok, List.filter] using ih
      | some tok =>
        simp [runUsers, htok, List.filter, processUser_eq_map, ih]
  · intro g token rec e hfetch
    simp [checkCard, hfetch]

/-- C7, witness: one record whose fetch raises is reported unreachable. -/
theorem check_trello_tasks_isolates_failures_witness :
    checkCard (fun _ _ => .error "card deleted") "tok"
        ⟨"c9", 3, "B1", "L1", "t", none, none⟩ =
      .unreachable "c9" "card deleted" :=
  check_trello_tasks_isolates_failures.2 (fun _ _ => .error "card deleted")
    "tok" ⟨"c9", 3, "B1", "L1", "t", none, none⟩ "card deleted" rfl

/-- C9.  A falsy transcript form field (missing or empty) short-circuits the
whole handler: no AI call and no integration call is made (the call log is
empty), the store is untouched, and both the analysis and the notification
passed to the template are `None`. -/
theorem analyze_empty_transcript_renders_nothing (env : Env) (u : UserCtx)
    (f : AnalyzeForm) (db : List TrelloCardRec)
    (h : truthy f.transcript = false) :
    analyze env u f db = ⟨none, none, db, []⟩ := by
  simp [analyze, h]

/-- C9, witness at a concrete missing-transcript request. -/
theorem analyze_empty_transcript_renders_nothing_witness :
    analyze
        ⟨⟨none, some "s", [], []⟩, true, .ok (), fun _ => .ok (),
          fun _ => .ok "c", .ok "ok", .ok (), fun _ => .ok "K"⟩
        ⟨1, none, false, false⟩
        ⟨none, none, none, none, none, none, none, none, none⟩ [] =
      ⟨none, none, [], []⟩ :=
  analyze_empty_transcript_renders_nothing _ _ _ _ rfl

/-- C3, counterexample.  With a truthy transcript and an AI result carrying
the error marker `"boom"`, the handler does skip every integration, but the
notification's message is `"AI Error: boom"` — the error embedded after a
fixed prefix — not the error message `"boom"` verbatim as the claim states. -/
theorem analyze_ai_error_message_not_verbatim_cex :
    (analyze
        ⟨⟨some "boom", none, [], []⟩, true, .ok (), fun _ => .ok (),
          fun _ => .ok "c", .ok "ok", .ok (), fun _ => .ok "K"⟩
        ⟨1, none, false, false⟩
        ⟨some "t", none, none, none, none, none, none, none, none⟩
        []).notification = some ⟨"danger", "AI Error: boom"⟩ ∧
    "AI Error: boom" ≠ "boom" := by
  constructor <;> decide

/-- C3, amended.  For every request whose AI result carries a non-empty
`error` marker: no integration adapter is invoked and no tracked record is
persisted (the only logged call is the summarizer invocation itself, and the
store is returned unchanged), and the produced notification is of type
`"danger"` with message `"AI Error: "` followed by the AI error message
verbatim — a fixed prefix, not the bare error text. -/
theorem analyze_ai_error_skips_integrations (env : Env) (u : UserCtx)
    (f : AnalyzeForm) (db : List TrelloCardRec) (e : String)
    (ht : truthy f.transcript = true) (he : env.aiResult.error = some e)
    (hne : e ≠ "") :
    analyze env u f db =
      ⟨some env.aiResult, some ⟨"danger", "AI Error: " ++ e⟩, db,
        [.aiGenerate]⟩ := by
  have hni : e.isEmpty = false := by
    rw [Bool.eq_false_iff]
    intro h
    exact hne ((String.isEmpty_iff e).mp h)
  have herr : errorTruthy env.aiResult = true := by
    simp [errorTruthy, truthy, he, hni]
  simp [analyze, ht, herr, he]

/-- C3, witness for the amended theorem. -/
theorem analyze_ai_error_skips_integrations_witness :
    analyze
        ⟨⟨some "boom", none, [], []⟩, true, .ok (), fun _ => .ok (),
          fun _ => .ok "c", .ok "ok", .ok (), fun _ => .ok "K"⟩
        ⟨1, none, false, false⟩
        ⟨some "t", none, none, none, none, none, none, none, none⟩ [] =
      ⟨some ⟨some "boom", none, [], []⟩, some ⟨"danger", "AI Error: boom"⟩,
        [], [.aiGenerate]⟩ :=
  analyze_ai_error_skips_integrations _ _ _ _ "boom" rfl rfl (by decide)

/-- `overall_type` only ever produces the two values of line 360/363. -/
lemma overall_type_cases (msgs : List String) :
    overall_type msgs = "success" ∨ overall_type msgs = "danger" := by
  unfold overall_type
  split
  · right; rfl
  · left; rfl

/-- C10.  Every notification the analyze handler hands to the template has
type exactly `"success"` or `"danger"`; and the fan-out classification is
`"success"` precisely when no collected automation message contains any of
the six case-sensitive substrings of line 362. -/
theorem analyze_notification_type_invariant :
    (∀ (env : Env) (u : UserCtx) (f : AnalyzeForm) (db : List TrelloCardRec)
        (n : Notification), (analyze env u f db).notification = some n →
        n.type = "success" ∨ n.type = "danger") ∧
    (∀ msgs : List String,
        overall_type msgs = "success" ↔
          ∀ m ∈ msgs, strContains m "Failed" = false ∧
            strContains m "Error" = false ∧
            strContains m "Invalid" = false ∧
            strContains m "must be" = false ∧
            strContains m "not connected" = false ∧
            strContains m "missing" = false) := by
  constructor
  · intro env u f db n h
    simp only [analyze] at h
    split at h
    · split at h
      · split at h
        · simp at h
        · rw [Option.some_inj] at h
          rw [← h]
          exact overall_type_cases _
      · rw [Option.some_inj] at h
        rw [← h]
        right; rfl
    · simp at h
  · intro msgs
    unfold overall_type
    by_cases h : msgs.any isFailureMsg = true
    · rw [if_pos h]
      constructor
      · intro hs; exact absurd hs (by decide)
      · intro hall
        obtain ⟨m, hm, hfm⟩ := List.any_eq_true.mp h
        obtain ⟨h1, h2, h3, h4, h5, h6⟩ := hall m hm
        simp [isFailureMsg, h1, h2, h3, h4, h5, h6] at hfm
    · rw [if_neg h]
      refine ⟨fun _ m hm => ?_, fun _ => rfl⟩
      have hfm : isFailureMsg m = false := by
        by_contra hc
        exact h (List.any_eq_true.mpr
          ⟨m, hm, by revert hc; cases isFailureMsg m <;> simp⟩)
      revert hfm
      simp [isFailureMsg]
      intro h1 h2 h3 h4 h5 h6
      exact ⟨h1, h2, h3, h4, h5, h6⟩

/-- C10, witness: the AI-error notification instantiates the type invariant. -/
theorem analyze_notification_type_invariant_witness :
    ("danger" : String) = "success" ∨ ("danger" : String) = "danger" :=
  analyze_notification_type_invariant.1
    ⟨⟨some "boom", none, [], []⟩, true, .ok (), fun _ => .ok (),
      fun _ => .ok "c", .ok "ok", .ok (), fun _ => .ok "K"⟩
    ⟨1, none, false, false⟩
    ⟨some "t", none, none, none, none, none, none, none, none⟩ []
    ⟨"danger", "AI Error: boom"⟩ rfl

/-- The email adapter only ever issues the SMTP send. -/
lemma send_summary_email_calls (cfg : Bool) (smtp : Except String Unit)
    (r : List String) (a : Analysis) (c : Call) :
    c ∈ (send_summary_email cfg smtp r a).2 → c = .emailSend := by
  unfold send_summary_email
  split
  · simp
  · split <;> simp

/-- The Trello card loop only ever issues `add_card` calls. -/
lemma trelloLoop_calls (ac : Nat → Except String String) (b l : String)
    (uid : Nat) :
    ∀ (items : List ActionItem) (idx created : Nat)
      (pending : List TrelloCardRec) (c : Call),
      c ∈ (trelloLoop ac b l uid items idx created pending).2 →
      c = .trelloAddCard := by
  intro items
  induction items with
  | nil => intro idx created pending c h; simp [trelloLoop] at h
  | cons item rest ih =>
    intro idx created pending c h
    simp only [trelloLoop] at h
    cases hac : ac idx with
    | error e => rw [hac] at h; simpa using h
    | ok cid =>
      rw [hac] at h
      simp only [List.mem_cons] at h
      rcases h with h | h
      · exact h
      · exact ih (idx + 1) (created + 1) _ c h

/-- The Trello adapter only ever issues `get_list` and `add_card` calls. -/
lemma create_trello_cards_calls (gl : String → Except String Unit)
    (ac : Nat → Except String String) (b l : String)
    (items : List ActionItem) (uid : Nat) (db : List TrelloCardRec)
    (c : Call) :
    c ∈ (create_trello_cards gl ac b l items uid db).2.2 →
    c = .trelloGetList ∨ c = .trelloAddCard := by
  simp only [create_trello_cards]
  split
  · intro h
    exact Or.inl (by simpa using h)
  · split
    · intro h
      rcases List.mem_cons.mp h with h2 | h2
      · exact Or.inl h2
      · exact Or.inr (trelloLoop_calls _ _ _ _ _ _ _ _ c h2)
    · intro h
      rcases List.mem_cons.mp h with h2 | h2
      · exact Or.inl h2
      · exact Or.inr (trelloLoop_calls _ _ _ _ _ _ _ _ c h2)

/-- The Slack adapter only ever issues the webhook POST. -/
lemma send_to_slack_calls (team : Option Team)
    (resp : Except String String) (a : Analysis) (c : Call) :
    c ∈ (send_to_slack team resp a).2 → c = .slackPost := by
  simp only [send_to_slack]
  split
  · simp
  · split
    · simp
    · split
      · simp
      · split <;> simp

/-- The email branch of the fan-out only issues email calls. -/
lemma emailSegment_calls (env : Env) (u : UserCtx) (f : AnalyzeForm)
    (a : Analysis) (c : Call) :
    c ∈ (emailSegment env u f a).2 → c = .emailSend := by
  simp only [emailSegment]
  split
  · split
    · split
      · exact send_summary_email_calls _ _ _ _ c
      · simp
    · simp
  · simp

/-- The Trello branch of the fan-out only issues Trello calls. -/
lemma trelloSegment_calls (env : Env) (u : UserCtx) (f : AnalyzeForm)
    (a : Analysis) (db : List TrelloCardRec) (c : Call) :
    c ∈ (trelloSegment env u f a db).2.2 →
    c = .trelloGetList ∨ c = .trelloAddCard := by
  simp only [trelloSegment]
  split
  · split
    · split
      · exact create_trello_cards_calls _ _ _ _ _ _ _ c
      · split <;> simp
    · simp
  · simp

/-- The Slack branch of the fan-out only issues the webhook POST. -/
lemma slackSegment_calls (env : Env) (u : UserCtx) (f : AnalyzeForm)
    (a : Analysis) (c : Call) :
    c ∈ (slackSegment env u f a).2 → c = .slackPost := by
  simp only [slackSegment]
  split
  · split
    · split
      · exact send_to_slack_calls _ _ _ c
      · simp
    · simp
  · simp

/-- C4.  With the issue-tracker flag set and a Jira credential row stored, a
missing project key or issue-type name makes the handler short-circuit at
lines 350-351: the status `"Jira: Project and Issue Type must be selected."`
is appended and the whole request performs no Jira network call — neither the
client connection (`JIRA(...)`/`server_info()`) nor any `create_issue`. -/
theorem analyze_jira_missing_params_short_circuit (env : Env) (u : UserCtx)
    (f : AnalyzeForm) (db : List TrelloCardRec)
    (ht : truthy f.transcript = true)
    (he : errorTruthy env.aiResult = false)
    (hflag : f.create_jira = some "true") (hcred : u.jira_credentials = true)
    (hmiss : truthy f.jira_project_key = false ∨
      truthy f.jira_issue_type_name = false) :
    "Jira: Project and Issue Type must be selected." ∈
        (runAutomations env u f env.aiResult db).1 ∧
    Call.jiraConnect ∉ (analyze env u f db).calls ∧
    Call.jiraCreate ∉ (analyze env u f db).calls := by
  have hjira : jiraSegment env u f env.aiResult =
      (["Jira: Project and Issue Type must be selected."], []) := by
    rcases hmiss with h | h <;> simp [jiraSegment, hflag, hcred, h]
  have hcalls : (analyze env u f db).calls =
      Call.aiGenerate ::
        ((emailSegment env u f env.aiResult).2 ++
          ((trelloSegment env u f env.aiResult db).2.2 ++
            ((slackSegment env u f env.aiResult).2 ++
              (jiraSegment env u f env.aiResult).2))) := by
    simp [analyze, ht, he, runAutomations]
  constructor
  · simp [runAutomations, hjira]
  constructor
  · intro hmem
    rw [hcalls, hjira] at hmem
    simp only [List.mem_cons, List.mem_append, List.not_mem_nil,
      or_false] at hmem
    rcases hmem with h | h | h | h
    · exact absurd h (by decide)
    · exact absurd (emailSegment_calls env u f env.aiResult _ h) (by decide)
    · rcases trelloSegment_calls env u f env.aiResult db _ h with h2 | h2 <;>
        exact absurd h2 (by decide)
    · exact absurd (slackSegment_calls env u f env.aiResult _ h) (by decide)
  · intro hmem
    rw [hcalls, hjira] at hmem
    simp only [List.mem_cons, List.mem_append, List.not_mem_nil,
      or_false] at hmem
    rcases hmem with h | h | h | h
    · exact absurd h (by decide)
    · exact absurd (emailSegment_calls env u f env.aiResult _ h) (by decide)
    · rcases trelloSegment_calls env u f env.aiResult db _ h with h2 | h2 <;>
        exact absurd h2 (by decide)
    · exact absurd (slackSegment_calls env u f env.aiResult _ h) (by decide)

/-- C4, witness: Jira flag set, credentials stored, no project key. -/
theorem analyze_jira_missing_params_short_circuit_witness :
    "Jira: Project and Issue Type must be selected." ∈
        (runAutomations
          ⟨⟨none, some "s", [], []⟩, true, .ok (), fun _ => .ok (),
            fun _ => .ok "c", .ok "ok", .ok (), fun _ => .ok "K"⟩
          ⟨1, none, false, true⟩
          ⟨some "t", none, none, none, none, none, some "true", none, none⟩
          ⟨none, some "s", [], []⟩ []).1 ∧
    Call.jiraConnect ∉
        (analyze
          ⟨⟨none, some "s", [], []⟩, true, .ok (), fun _ => .ok (),
            fun _ => .ok "c", .ok "ok", .ok (), fun _ => .ok "K"⟩
          ⟨1, none, false, true⟩
          ⟨some "t", none, none, none, none, none, some "true", none, none⟩
          []).calls ∧
    Call.jiraCreate ∉
        (analyze
          ⟨⟨none, some "s", [], []⟩, true, .ok (), fun _ => .ok (),
            fun _ => .ok "c", .ok "ok", .ok (), fun _ => .ok "K"⟩
          ⟨1, none, false, true⟩
          ⟨some "t", none, none, none, none, none, some "true", none, none⟩
          []).calls :=
  analyze_jira_missing_params_short_circuit _ _ _ _ rfl rfl rfl rfl
    (Or.inl rfl)

/-- `String.append` concatenates the underlying character lists. -/
lemma data_append (s t : String) : (s ++ t).data = s.data ++ t.data := by
  cases s
  cases t
  rfl

/-- `"Failed"` occurs in every network-failure Slack status, whatever the
error text is. -/
lemma strContains_slack_failed (e : String) :
    strContains ("Slack: " ++ ("Failed Slack send: " ++ e)) "Failed" = true := by
  have h1 : "Failed".data <:+: "Failed Slack send: ".data := by decide
  have h2 : "Failed Slack send: ".data <+:
      "Failed Slack send: ".data ++ e.data := List.prefix_append _ _
  have h3 : ("Failed Slack send: ".data ++ e.data) <:+
      ("Slack: ".data ++ ("Failed Slack send: ".data ++ e.data)) :=
    List.suffix_append _ _
  have hinf : "Failed".data <:+:
      ("Slack: " ++ ("Failed Slack send: " ++ e)).data := by
    rw [data_append, data_append]
    exact (h1.trans h2.isInfix).trans h3.isInfix
  simpa [strContains] using hinf

/-- A message matching the failure vocabulary forces the aggregate
classification to `"danger"`. -/
lemma overall_type_danger_of_mem (msgs : List String) (m : String)
    (hm : m ∈ msgs) (hf : isFailureMsg m = true) :
    overall_type msgs = "danger" := by
  unfold overall_type
  rw [if_pos (List.any_eq_true.mpr ⟨m, hm, hf⟩)]

/-- C5, counterexample.  A request with the chat flag set, a team with a
webhook, and a completed HTTP response whose body is `"nope"` (not `"ok"`):
the adapter does return a failure-describing status, but the aggregate
notification is classified `"success"`, not failure-classified as the claim
states — `"Slack: Slack unexpected response: nope"` contains no word of the
failure vocabulary. -/
theorem analyze_slack_non_ok_body_not_danger_cex :
    (analyze
        ⟨⟨none, some "s", [], []⟩, true, .ok (), fun _ => .ok (),
          fun _ => .ok "c", .ok "nope", .ok (), fun _ => .ok "K"⟩
        ⟨1, some ⟨[], some "https://hooks.slack.com/services/X"⟩, false,
          false⟩
        ⟨some "t", none, none, none, none, some "true", none, none, none⟩
        []).notification =
      some ⟨"success", "Slack: Slack unexpected response: nope"⟩ ∧
    "success" ≠ "danger" := by
  constructor <;> decide

/-- C5, amended.  For a configured team, `send_to_slack` converts both
failure modes into descriptive status strings: a network error (or HTTP error
status) yields `"Failed Slack send: "` plus the error — and this status,
prefixed `"Slack: "` by the handler, always drives the aggregate
classification to `"danger"` because it contains `"Failed"` — while a
completed response whose body is not `"ok"` yields
`"Slack unexpected response: "` plus the body, which is failure-classified
only if the body itself happens to contain a failure-vocabulary word: for
body `"nope"` the aggregate classification is `"success"`. -/
theorem send_to_slack_failure_statuses (t : Team) (e body : String)
    (a : Analysis) (hurl : truthy t.slack_webhook_url = true) :
    ((send_to_slack (some t) (.error e) a).1 = "Failed Slack send: " ++ e ∧
      ∀ msgs : List String,
        ("Slack: " ++ ("Failed Slack send: " ++ e)) ∈ msgs →
        overall_type msgs = "danger") ∧
    (body ≠ "ok" →
      (send_to_slack (some t) (.ok body) a).1 =
        "Slack unexpected response: " ++ body) ∧
    overall_type ["Slack: Slack unexpected response: nope"] = "success" := by
  refine ⟨⟨?_, ?_⟩, ?_, by decide⟩
  · simp [send_to_slack, hurl]
  · intro msgs hm
    exact overall_type_danger_of_mem msgs _ hm
      (by simp [isFailureMsg, strContains_slack_failed e])
  · intro hb
    simp [send_to_slack, hurl, hb]

/-- C5, witness for the amended theorem. -/
theorem send_to_slack_failure_statuses_witness :
    (send_to_slack (some ⟨[], some "https://hooks.slack.com/services/X"⟩)
        (.error "timeout") ⟨none, none, [], []⟩).1 =
      "Failed Slack send: timeout" ∧
    overall_type ["Slack: Failed Slack send: timeout"] = "danger" ∧
    (send_to_slack (some ⟨[], some "https://hooks.slack.com/services/X"⟩)
        (.ok "nope") ⟨none, none, [], []⟩).1 =
      "Slack unexpected response: nope" :=
  have h := send_to_slack_failure_statuses
    ⟨[], some "https://hooks.slack.com/services/X"⟩ "timeout" "nope"
    ⟨none, none, [], []⟩ rfl
  ⟨h.1.1, h.1.2 _ (List.mem_singleton.mpr rfl), h.2.1 (by decide)⟩

/-- C8.  Each of the four integration adapters is total with respect to
upstream failures: whatever the external calls return or raise, the adapter
returns one of its documented descriptive status strings — the embedded
functions return plain strings in every case, mirroring the source `except`
handlers that convert every exception into text, so no exception reaches the
analyze fan-out. -/
theorem adapters_total_descriptive_status :
    (∀ (cfg : Bool) (smtp : Except String Unit) (r : List String)
        (a : Analysis),
        (send_summary_email cfg smtp r a).1 = "Email creds not configured." ∨
        (send_summary_email cfg smtp r a).1 = "Email sent successfully." ∨
        ∃ e, (send_summary_email cfg smtp r a).1 =
          "Failed to send email: " ++ e) ∧
    (∀ (gl : String → Except String Unit) (ac : Nat → Except String String)
        (b l : String) (items : List ActionItem) (uid : Nat)
        (db : List TrelloCardRec),
        (∃ n : Nat, (create_trello_cards gl ac b l items uid db).1 =
          toString n ++ " Trello cards created.") ∨
        ∃ e, (create_trello_cards gl ac b l items uid db).1 =
          "Failed Trello cards: " ++ e) ∧
    (∀ (team : Option Team) (resp : Except String String) (a : Analysis),
        (send_to_slack team resp a).1 =
          "Slack is not configured for this team." ∨
        (send_to_slack team resp a).1 = "Summary sent to Slack." ∨
        (∃ e, (send_to_slack team resp a).1 = "Failed Slack send: " ++ e) ∨
        ∃ b2, (send_to_slack team resp a).1 =
          "Slack unexpected response: " ++ b2) ∧
    (∀ (creds : Bool) (conn : Except String Unit)
        (create : Nat → Except String String) (items : List ActionItem)
        (pk itn : String),
        (create_jira_issues creds conn create items pk itn).1 =
          "Failed to connect to Jira. Check credentials." ∨
        (create_jira_issues creds conn create items pk itn).1 =
          "No action items to create." ∨
        (create_jira_issues creds conn create items pk itn).1 =
          "Jira Project/Issue Type required." ∨
        (∃ n : Nat, (create_jira_issues creds conn create items pk itn).1 =
          toString n ++ " Jira issues created in " ++ pk ++ ".") ∨
        ∃ (n : Nat) (fs : String),
          (create_jira_issues creds conn create items pk itn).1 =
            "Created " ++ toString n ++ " issues. Failed for: " ++ fs ++
              ".") := by
  refine ⟨?_, ?_, ?_, ?_⟩
  · intro cfg smtp r a
    simp only [send_summary_email]
    split
    · left; rfl
    · split
      · right; left; rfl
      · right; right; exact ⟨_, rfl⟩
  · intro gl ac b l items uid db
    simp only [create_trello_cards]
    split
    · right; exact ⟨_, rfl⟩
    · split
      · right; exact ⟨_, rfl⟩
      · left; exact ⟨_, rfl⟩
  · intro team resp a
    simp only [send_to_slack]
    split
    · left; rfl
    · split
      · left; rfl
      · split
        · right; right; left; exact ⟨_, rfl⟩
        · split
          · right; left; rfl
          · right; right; right; exact ⟨_, rfl⟩
  · intro creds conn create items pk itn
    simp only [create_jira_issues]
    split
    · left; rfl
    · split
      · right; left; rfl
      · split
        · right; right; left; rfl
        · split
          · right; right; right; left; exact ⟨_, rfl⟩
          · right; right; right; right; exact ⟨_, _, rfl⟩

end MeetingAgent
